import Mathlib

/-!
Verification of the sync-run orchestration flow of the `aquifer` repository
(`webapps/console/pages/api/[workspaceId]/sources/run` route handler together with
its helpers `catalogFromDb` and `selectStreamsFromCatalog`, shipped in
`src/webapps/console/lib/store/index.tsx`).

The TypeScript code is shallowly embedded: JSON values become the inductive
`Aquifer.Json`, Prisma tables become lists of typed rows inside `Aquifer.SyncDb`,
thrown exceptions become `Except String`, and the single route handler becomes the
pure function `Aquifer.runSyncHandler` which returns the HTTP result together with
the updated database and the dispatch request issued to the sync controller
(if any).  External collaborators (the generated UUID, the OAuth credential
resolver, the remote dispatch call) are passed in as explicit outcomes.
-/

namespace Aquifer

/-- A JSON value as stored in the database / passed around the handler as `any`.
Numbers are modelled as integers: the payloads here are opaque blobs whose
numeric precision never matters to the control flow. -/
inductive Json where
  | null
  | bool (b : Bool)
  | num (n : Int)
  | str (s : String)
  | arr (elems : List Json)
  | obj (fields : List (String × Json))

/-- JavaScript truthiness of a JSON value (`undefined` is modelled separately as
`Option.none` wherever it can occur). -/
def Json.truthy : Json → Bool
  | .null => false
  | .bool b => b
  | .num n => n != 0
  | .str s => s != ""
  | .arr _ => true
  | .obj _ => true

/-- Truthiness of a possibly-`undefined` JavaScript value (`!!x`). -/
def jsTruthyOpt : Option Json → Bool
  | none => false
  | some j => j.truthy

/-- Assigning a key in a JavaScript object literal: if the key already exists its
value is replaced in place, otherwise the key is appended. -/
def jsUpsert (kvs : List (String × Json)) (k : String) (v : Json) : List (String × Json) :=
  if kvs.any (fun p => p.1 == k) then
    kvs.map (fun p => if p.1 == k then (k, v) else p)
  else
    kvs ++ [(k, v)]

/-- The own enumerable properties contributed by spreading a value into an object
literal (`{...x}`): objects contribute their fields, strings and arrays contribute
index-keyed entries, primitives contribute nothing. -/
def jsSpreadFields : Json → List (String × Json)
  | .obj kvs => kvs
  | .str s => (s.toList.enum).map (fun p => (toString p.1, Json.str p.2.toString))
  | .arr xs => (xs.enum).map (fun p => (toString p.1, p.2))
  | _ => []

/-- Spreading a possibly-`undefined` value (`{...undefined}` is `{}`). -/
def jsSpreadOpt : Option Json → List (String × Json)
  | none => []
  | some j => jsSpreadFields j

/-- A row of the `source_state` table: `(sync_id, stream, state)`. -/
structure SourceStateRow where
  sync_id : String
  stream : String
  state : Json

/-- One element of the v2 checkpoint-state array sent to the sync controller:
either `{type:"GLOBAL", global: blob}` or
`{type:"STREAM", stream:{stream_descriptor:{name, namespace?}, stream_state: blob}}`. -/
inductive StateEntry where
  | globalEntry (global : Json)
  | streamEntry (name : String) (nspace : Option String) (stream_state : Json)

/-- The value of the handler's `stateObj` variable when it is defined: either the
verbatim legacy blob or a list of v2 entries. -/
inductive StateVal where
  | legacy (blob : Json)
  | entries (items : List StateEntry)

/-- JavaScript truthiness of a defined `stateObj` value (arrays are always
truthy, the legacy blob is truthy according to its JSON value). -/
def StateVal.truthy : StateVal → Bool
  | .legacy b => b.truthy
  | .entries _ => true

/-- Character-level embedding of JavaScript `s.split(".")` (the handler's
`r.stream.split(".")`): splits on every dot, keeping empty segments. -/
def splitCharsOnDot : List Char → List (List Char)
  | [] => [[]]
  | c :: cs =>
    let rest := splitCharsOnDot cs
    if c = '.' then [] :: rest
    else
      match rest with
      | h :: t => (c :: h) :: t
      | [] => [[c]]

/-- JavaScript `s.split(".")` on a Lean string. -/
def splitOnDot (s : String) : List String :=
  (splitCharsOnDot s.toList).map (fun cs => String.mk cs)

/-- Decode of one per-stream `source_state` row, transcribing the body of the
`.map` callback in the handler: 1 dot-segment gives a name-only descriptor,
2 segments give `namespace.name`, anything else throws
`Invalid stream name <stream>`. -/
def decodePerStreamRow (r : SourceStateRow) : Except String StateEntry :=
  match splitOnDot r.stream with
  | [name] => .ok (.streamEntry name none r.state)
  | [ns, name] => .ok (.streamEntry name (some ns) r.state)
  | _ => .error ("Invalid stream name " ++ r.stream)

/-- JavaScript `Array.prototype.map` with a callback that may throw: the rows are
processed left to right and the first throw aborts the whole map. -/
def mapThrow (f : α → Except ε β) : List α → Except ε (List β)
  | [] => .ok []
  | a :: as =>
    match f a with
    | .error e => .error e
    | .ok b =>
      match mapThrow f as with
      | .error e => .error e
      | .ok bs => .ok (b :: bs)

/-- The state-loading branch of the handler (the non-`fullSync` arm): given the
`source_state` rows fetched for the sync, produce the `stateObj` value.
Transcribes the cascade `stateRows.length === 1 && stream === "_LEGACY_STATE"`,
`length === 1 && stream === "_GLOBAL_STATE"`, otherwise the filtered per-stream
map; `stateRows.length === 0` leaves `stateObj` undefined (`none`). -/
def loadStateObj (stateRows : List SourceStateRow) : Except String (Option StateVal) :=
  match stateRows with
  | [] => .ok none
  | r :: rest =>
    if rest.isEmpty && r.stream == "_LEGACY_STATE" then
      .ok (some (.legacy r.state))
    else if rest.isEmpty && r.stream == "_GLOBAL_STATE" then
      .ok (some (.entries [.globalEntry r.state]))
    else
      match mapThrow decodePerStreamRow
          ((r :: rest).filter (fun r2 => r2.stream != "_LEGACY_STATE" && r2.stream != "_GLOBAL_STATE")) with
      | .ok items => .ok (some (.entries items))
      | .error e => .error e

/-- A stream descriptor inside a stored catalog: the `name`, the optional
`namespace` field (here `nspace`; `some ""` models a present-but-empty namespace
string), and the remaining descriptor fields which the handler passes through
verbatim. -/
structure CatalogStream where
  name : String
  nspace : Option String
  extra : List (String × Json) := []

/-- The JSON object a catalog stream descriptor denotes (used where the source
embeds the whole descriptor under the `stream` key). -/
def CatalogStream.toJson (s : CatalogStream) : Json :=
  Json.obj ([("name", Json.str s.name)] ++
    (match s.nspace with
     | some n => [("namespace", Json.str n)]
     | none => []) ++ s.extra)

/-- A stored catalog: the object `{streams: [...]}` fetched from `source_catalog`. -/
structure Catalog where
  streams : List CatalogStream

/-- The configured catalog returned by `selectStreamsFromCatalog`: the object
`{streams}` whose elements are the per-stream JSON objects built by the map. -/
@[ext] structure ConfiguredCatalog where
  streams : List Json

/-- Transcription of `selectStreamsFromCatalog(catalog, selectedStreams)`:
filter the catalog streams to those whose key
(`s.namespace ? s.namespace + "." + s.name : s.name`) has a truthy entry in
`selectedStreams`, then emit `{...directive, destination_sync_mode: "overwrite",
stream: s}` for each survivor. -/
def selectStreamsFromCatalog (catalog : Catalog) (selectedStreams : List (String × Json)) :
    ConfiguredCatalog :=
  let streams := (catalog.streams.filter (fun s =>
      jsTruthyOpt (selectedStreams.lookup
        (match s.nspace with
         | some n => if n != "" then n ++ "." ++ s.name else s.name
         | none => s.name)))).map (fun s =>
      let stream := selectedStreams.lookup
        (match s.nspace with
         | some n => if n != "" then n ++ "." ++ s.name else s.name
         | none => s.name)
      Json.obj (jsUpsert (jsUpsert (jsSpreadOpt stream)
        "destination_sync_mode" (Json.str "overwrite")) "stream" s.toJson))
  { streams := streams }

/-- The selection key of a catalog stream as the code computes it:
`namespace.name` when the stream has a nonempty namespace and `name` otherwise
(a present-but-empty namespace string is treated as absent, because the source
tests the namespace for JavaScript truthiness). -/
def streamSelectionKey (s : CatalogStream) : String :=
  match s.nspace with
  | some n => if n != "" then n ++ "." ++ s.name else s.name
  | none => s.name

/-- The selection key exactly as claim C4 words it: `namespace.name` whenever
the stream has a namespace field at all (including an empty one), `name`
otherwise. -/
def claimedStreamKey (s : CatalogStream) : String :=
  match s.nspace with
  | some n => n ++ "." ++ s.name
  | none => s.name

/-- The emitted entry for a selected catalog stream, phrased as the spec words
it: the selection directive's fields, merged with
`destination_sync_mode: "overwrite"` and the full catalog stream descriptor
under `stream`. -/
def configuredStreamEntry (selectedStreams : List (String × Json)) (s : CatalogStream) : Json :=
  Json.obj (jsUpsert (jsUpsert (jsSpreadOpt (selectedStreams.lookup (streamSelectionKey s)))
    "destination_sync_mode" (Json.str "overwrite")) "stream" s.toJson)

/-- A row of the `source_task` table. -/
structure SourceTask where
  task_id : String
  sync_id : String
  status : String

/-- The `config` JSON of the source service (`service.config`): the connector
package, its version and the remaining credential fields. -/
structure ServiceConfigData where
  package : String
  version : String
  rest : List (String × Json) := []

/-- The `from` relation of a sync link as returned by the Prisma `include`:
the related configuration object carrying the service config. -/
structure ServiceObject where
  config : ServiceConfigData

/-- The `data` JSON payload of a sync link: the catalog storage key and the
selected-streams map (stream key to sync-mode directive). -/
structure SyncData where
  storageKey : String
  streams : List (String × Json)

/-- A row of the `configurationObjectLink` table, with the `from` relation
joined in (`fromRel`; `from` is a Lean keyword). -/
structure ConfigurationObjectLink where
  id : String
  workspaceId : String
  deleted : Bool
  type : String
  fromId : String
  data : SyncData
  fromRel : Option ServiceObject

/-- A row of the `source_catalog` table. -/
structure CatalogRow where
  key : String
  package : String
  version : String
  catalog : Catalog

/-- The persisted state the handler touches. -/
structure SyncDb where
  links : List ConfigurationObjectLink
  tasks : List SourceTask
  states : List SourceStateRow
  catalogs : List CatalogRow

/-- The query parameters of the run route (`fullSync` is an optional string,
compared against `"true"` and `"1"`). -/
structure RunQuery where
  workspaceId : String
  syncId : String
  fullSync : Option String

/-- The `runningTask` object of an already-running response: the running task's
id and its status/logs URLs. -/
structure RunningTaskInfo where
  taskId : String
  status : String
  logs : String

/-- The route result (the zod `resultType`): absent optional fields are `none`. -/
structure RunResult where
  ok : Bool
  error : Option String := none
  taskId : Option String := none
  status : Option String := none
  logs : Option String := none
  runningTask : Option RunningTaskInfo := none

/-- The JSON body returned by the sync controller's `/read` endpoint. -/
structure RpcResult where
  ok : Bool
  error : Option String

/-- The dispatch call issued to the sync controller: the query parameters and
the JSON body (`state` is present only when `stateObj` is defined and truthy). -/
structure DispatchRequest where
  package : String
  version : String
  taskId : String
  syncId : String
  config : Json
  catalog : ConfiguredCatalog
  state : Option StateVal

/-- Everything observable about one handler invocation: the HTTP result, the
database afterwards, and the dispatch request that was issued (if any). -/
structure RunOutcome where
  result : RunResult
  db : SyncDb
  dispatched : Option DispatchRequest

/-- The status URL built for a task:
`<base>/api/<workspaceId>/sources/tasks?taskId=<t>&syncId=<s>`. -/
def taskUrl (baseUrl workspaceId taskId syncId : String) : String :=
  baseUrl ++ "/api/" ++ workspaceId ++ "/sources/tasks?taskId=" ++ taskId ++ "&syncId=" ++ syncId

/-- The logs URL built for a task:
`<base>/api/<workspaceId>/sources/logs?taskId=<t>&syncId=<s>`. -/
def logUrl (baseUrl workspaceId taskId syncId : String) : String :=
  baseUrl ++ "/api/" ++ workspaceId ++ "/sources/logs?taskId=" ++ taskId ++ "&syncId=" ++ syncId

/-- Modelled from the spec: `syncError` lives in `lib/shared/errors`, which is
not part of the provided sources.  Per the spec, all unexpected exceptions are
caught at the top level, logged server-side and converted into the uniform
`{ok:false, error}` shape.  It receives only a message, the thrown error and a
context string, so its output cannot carry the generated task id. -/
def syncError (message : String) (e : String) (context : String) : RunResult :=
  { ok := false, error := some (message ++ ": " ++ e ++ " (" ++ context ++ ")") }

/-- Transcription of `catalogFromDb(packageName, version, storageKey)`: the SQL
lookup on `source_catalog` by `(key, package, version)`, returning the catalog
only when exactly one row matches. -/
def catalogFromDb (db : SyncDb) (packageName : String) (version : String) (storageKey : String) :
    Option Catalog :=
  match db.catalogs.filter (fun c =>
      c.key == storageKey && c.package == packageName && c.version == version) with
  | [c] => some c.catalog
  | _ => none

/-- The Prisma filter of the sync-link lookup:
`{id: syncId, workspaceId, deleted: false, type: "sync"}`. -/
def linkMatches (query : RunQuery) (l : ConfigurationObjectLink) : Bool :=
  l.id == query.syncId && l.workspaceId == query.workspaceId &&
    l.deleted == false && l.type == "sync"

/-- The Prisma filter of the running-task lookup:
`{sync_id: syncId, status: "RUNNING"}`. -/
def taskRunningMatches (query : RunQuery) (t : SourceTask) : Bool :=
  t.sync_id == query.syncId && t.status == "RUNNING"

/-- Transcription of the body of the sync-run route handler (the `try` block of
the GET handler, after the authorization preamble).  Collaborator outcomes are
passed explicitly: `taskId` is the generated UUID, `oauthResult` the outcome of
`tryManageOauthCreds` and `dispatchResult` the outcome of the `rpc` call to the
sync controller (`Except.error` models a thrown exception, caught by the
handler's top-level `catch` which delegates to `syncError`). -/
def runSyncHandler (db : SyncDb) (query : RunQuery) (baseUrl : String) (taskId : String)
    (oauthResult : Except String Json) (dispatchResult : Except String RpcResult) : RunOutcome :=
  match db.links.find? (linkMatches query) with
  | none =>
    ⟨{ ok := false, error := some ("Sync " ++ query.syncId ++ " not found") }, db, none⟩
  | some sync =>
    match db.tasks.find? (taskRunningMatches query) with
    | some running =>
      ⟨{ ok := false, error := some "Sync is already running",
         runningTask := some
           { taskId := running.task_id,
             status := taskUrl baseUrl query.workspaceId running.task_id query.syncId,
             logs := logUrl baseUrl query.workspaceId running.task_id query.syncId } },
       db, none⟩
    | none =>
      match sync.fromRel with
      | none => ⟨{ ok := false, error := some "Service null not found" }, db, none⟩
      | some service =>
        let fullSync := query.fullSync == some "true" || query.fullSync == some "1"
        let db1 := if fullSync then
            { db with states := db.states.filter (fun r => r.sync_id != query.syncId) }
          else db
        let stateObjE : Except String (Option StateVal) :=
          if fullSync then .ok none
          else loadStateObj (db.states.filter (fun r => r.sync_id == query.syncId))
        match stateObjE with
        | .error e =>
          ⟨syncError "Error running sync" e
             ("sync: " ++ query.syncId ++ " workspace: " ++ query.workspaceId), db1, none⟩
        | .ok stateObj =>
          match catalogFromDb db service.config.package service.config.version
              sync.data.storageKey with
          | none =>
            ⟨{ ok := false,
               error := some "Catalog not found. Please run Refresh Catalog in Sync settings" },
             db1, none⟩
          | some catalog =>
            let configuredCatalog := selectStreamsFromCatalog catalog sync.data.streams
            match oauthResult with
            | .error e =>
              ⟨syncError "Error running sync" e
                 ("sync: " ++ query.syncId ++ " workspace: " ++ query.workspaceId), db1, none⟩
            | .ok config =>
              let req : DispatchRequest :=
                { package := service.config.package, version := service.config.version,
                  taskId := taskId, syncId := query.syncId, config := config,
                  catalog := configuredCatalog,
                  state := match stateObj with
                    | some v => if v.truthy then some v else none
                    | none => none }
              match dispatchResult with
              | .error e =>
                ⟨syncError "Error running sync" e
                   ("sync: " ++ query.syncId ++ " workspace: " ++ query.workspaceId),
                 db1, some req⟩
              | .ok res =>
                if !res.ok then
                  ⟨{ ok := false, error := some (res.error.getD "unknown error"),
                     taskId := some taskId }, db1, some req⟩
                else
                  ⟨{ ok := true, taskId := some taskId,
                     status := some (taskUrl baseUrl query.workspaceId taskId query.syncId),
                     logs := some (logUrl baseUrl query.workspaceId taskId query.syncId) },
                   db1, some req⟩

/-! ### Concrete fixtures used by witnesses and counterexamples -/

/-- A source service: connector package `pkg` at version `v1`. -/
def fixService : ServiceObject := { config := { package := "pkg", version := "v1" } }

/-- A live sync link `s1` in workspace `w1`, selecting stream `a`. -/
def fixLink : ConfigurationObjectLink :=
  { id := "s1", workspaceId := "w1", deleted := false, type := "sync",
    fromId := "f1",
    data := { storageKey := "sk",
              streams := [("a", Json.obj [("sync_mode", Json.str "full_refresh")])] },
    fromRel := some fixService }

/-- The same link with its `from` relation missing. -/
def fixLinkNoService : ConfigurationObjectLink := { fixLink with fromRel := none }

/-- The same link soft-deleted. -/
def fixLinkDeleted : ConfigurationObjectLink := { fixLink with deleted := true }

/-- The stored catalog for `(sk, pkg, v1)`, exposing one stream `a`. -/
def fixCatalogRow : CatalogRow :=
  { key := "sk", package := "pkg", version := "v1",
    catalog := { streams := [{ name := "a", nspace := none }] } }

/-- A run request for sync `s1` in workspace `w1` without `fullSync`. -/
def fixQuery : RunQuery := { workspaceId := "w1", syncId := "s1", fullSync := none }

/-- The same run request with `fullSync=true`. -/
def fixQueryFull : RunQuery := { workspaceId := "w1", syncId := "s1", fullSync := some "true" }

/-- A database around `fixLink` with the given tasks and state rows. -/
def fixDb (tasks : List SourceTask) (states : List SourceStateRow) : SyncDb :=
  { links := [fixLink], tasks := tasks, states := states, catalogs := [fixCatalogRow] }

/-- Database for the C2 counterexample: the link's service relation is missing
and a checkpoint row for `s1` is present. -/
def cdb2 : SyncDb :=
  { links := [fixLinkNoService], tasks := [],
    states := [⟨"s1", "customers", Json.num 7⟩], catalogs := [fixCatalogRow] }

/-- Database for the C5 witness: the only link matching `s1` is soft-deleted. -/
def cdb5 : SyncDb :=
  { links := [fixLinkDeleted], tasks := [], states := [], catalogs := [] }

/-- A catalog stream with a present-but-empty namespace string. -/
def fixEmptyNsStream : CatalogStream := { name := "a", nspace := some "" }

/-- Selection that has an entry for plain key `a`. -/
def fixSelectionA : List (String × Json) := [("a", Json.bool true)]

/-- A catalog with two namespace-less streams `a` and `b`. -/
def fixCatalogAB : Catalog :=
  { streams := [{ name := "a", nspace := none }, { name := "b", nspace := none }] }

/-! ### Helper lemmas -/

theorem lookup_eq_none_of_keys {β : Type} (k : String) (sel : List (String × β))
    (h : ∀ p ∈ sel, p.1 ≠ k) : List.lookup k sel = none := by
  induction sel with
  | nil => rfl
  | cons p ps ih =>
    obtain ⟨a, b⟩ := p
    have hp : a ≠ k := h (a, b) (by simp)
    have hba : (k == a) = false := beq_eq_false_iff_ne.mpr (fun he => hp he.symm)
    simp only [List.lookup, hba]
    exact ih (fun q hq => h q (by simp [hq]))

theorem lookup_cons_ne {β : Type} (key k : String) (v : β) (sel : List (String × β))
    (hne : key ≠ k) : List.lookup key ((k, v) :: sel) = List.lookup key sel := by
  have hb : (key == k) = false := beq_eq_false_iff_ne.mpr hne
  simp only [List.lookup, hb]

theorem lookup_cons_self {β : Type} (k : String) (v : β) (sel : List (String × β)) :
    List.lookup k ((k, v) :: sel) = some v := by
  simp [List.lookup]

/-- The output of `selectStreamsFromCatalog`, written as the spec describes it:
the catalog streams with a truthy selection entry at their key, in catalog
order, each mapped to the configured entry. -/
theorem selectStreams_eq (catalog : Catalog) (sel : List (String × Json)) :
    (selectStreamsFromCatalog catalog sel).streams =
      (catalog.streams.filter (fun s => jsTruthyOpt (List.lookup (streamSelectionKey s) sel))).map
        (configuredStreamEntry sel) := rfl

/-- A throwing callback anywhere in the list makes the whole JavaScript `.map`
throw. -/
theorem mapThrow_error_of_mem {α ε β : Type} {f : α → Except ε β} {l : List α} {a : α}
    (ha : a ∈ l) (e : ε) (hfa : f a = .error e) : ∃ e', mapThrow f l = .error e' := by
  induction l with
  | nil => cases ha
  | cons b bs ih =>
    cases hb : f b with
    | error eb => exact ⟨eb, by simp [mapThrow, hb]⟩
    | ok vb =>
      rcases List.mem_cons.mp ha with rfl | ha'
      · rw [hb] at hfa; cases hfa
      · rcases ih ha' with ⟨e', he'⟩
        exact ⟨e', by simp [mapThrow, hb, he']⟩

/-- A stream key with a segment count other than 1 or 2 makes the per-stream
decode throw `Invalid stream name <stream>`. -/
theorem decodePerStreamRow_invalid (r : SourceStateRow)
    (h1 : (splitOnDot r.stream).length ≠ 1) (h2 : (splitOnDot r.stream).length ≠ 2) :
    decodePerStreamRow r = .error ("Invalid stream name " ++ r.stream) := by
  unfold decodePerStreamRow
  cases hs : splitOnDot r.stream with
  | nil => rfl
  | cons x xs =>
    cases xs with
    | nil => exact absurd (by rw [hs]; rfl) h1
    | cons y ys =>
      cases ys with
      | nil => exact absurd (by rw [hs]; rfl) h2
      | cons z zs => rfl

/-- On a batch that is not a single sentinel row, `loadStateObj` takes the
per-stream branch: it filters out the sentinel rows and maps the per-stream
decode over the rest. -/
theorem loadStateObj_perStream (r0 : SourceStateRow) (rest : List SourceStateRow)
    (h : rest ≠ [] ∨ (r0.stream ≠ "_LEGACY_STATE" ∧ r0.stream ≠ "_GLOBAL_STATE")) :
    loadStateObj (r0 :: rest) =
      match mapThrow decodePerStreamRow ((r0 :: rest).filter
          (fun r2 => r2.stream != "_LEGACY_STATE" && r2.stream != "_GLOBAL_STATE")) with
      | .ok items => .ok (some (.entries items))
      | .error e => .error e := by
  rcases h with h | ⟨h1, h2⟩
  · have hne : rest.isEmpty = false := by cases rest <;> simp_all
    simp [loadStateObj, hne]
  · simp [loadStateObj, h1, h2]

/-- When no live sync link matches, the handler returns the not-found result
and touches nothing. -/
theorem runSync_notFound_path (db : SyncDb) (query : RunQuery) (baseUrl taskId : String)
    (oauthResult : Except String Json) (dispatchResult : Except String RpcResult)
    (h : ∀ l ∈ db.links, ¬(l.id = query.syncId ∧ l.workspaceId = query.workspaceId ∧
      l.deleted = false ∧ l.type = "sync")) :
    runSyncHandler db query baseUrl taskId oauthResult dispatchResult =
      ⟨{ ok := false, error := some ("Sync " ++ query.syncId ++ " not found") }, db, none⟩ := by
  have hf : db.links.find? (linkMatches query) = none := by
    rw [List.find?_eq_none]
    intro l hl
    simpa [linkMatches, and_assoc] using h l hl
  simp [runSyncHandler, hf]

/-- When a running task exists, the handler returns the already-running result
(with the running task's id and URLs) and touches nothing. -/
theorem runSync_running_path (db : SyncDb) (query : RunQuery) (baseUrl taskId : String)
    (oauthResult : Except String Json) (dispatchResult : Except String RpcResult)
    (sync : ConfigurationObjectLink) (running : SourceTask)
    (h1 : db.links.find? (linkMatches query) = some sync)
    (h2 : db.tasks.find? (taskRunningMatches query) = some running) :
    runSyncHandler db query baseUrl taskId oauthResult dispatchResult =
      ⟨{ ok := false, error := some "Sync is already running",
         runningTask := some
           { taskId := running.task_id,
             status := taskUrl baseUrl query.workspaceId running.task_id query.syncId,
             logs := logUrl baseUrl query.workspaceId running.task_id query.syncId } },
       db, none⟩ := by
  simp [runSyncHandler, h1, h2]

/-- The outcome of a run that passes the link, running-task and service checks
in the non-fullSync case where state decoding and the catalog lookup succeed:
exactly one dispatch request is issued, carrying the configured catalog and the
state when defined and truthy. -/
theorem runSync_dispatch_path (db : SyncDb) (query : RunQuery) (baseUrl taskId : String)
    (config : Json) (res : RpcResult)
    (sync : ConfigurationObjectLink) (service : ServiceObject)
    (so : Option StateVal) (cat : Catalog)
    (h1 : db.links.find? (linkMatches query) = some sync)
    (h2 : db.tasks.find? (taskRunningMatches query) = none)
    (h3 : sync.fromRel = some service)
    (hfs : (query.fullSync == some "true" || query.fullSync == some "1") = false)
    (h4 : loadStateObj (db.states.filter (fun r => r.sync_id == query.syncId)) = .ok so)
    (h5 : catalogFromDb db service.config.package service.config.version
      sync.data.storageKey = some cat) :
    runSyncHandler db query baseUrl taskId (.ok config) (.ok res) =
      let req : DispatchRequest :=
        { package := service.config.package, version := service.config.version,
          taskId := taskId, syncId := query.syncId, config := config,
          catalog := selectStreamsFromCatalog cat sync.data.streams,
          state := match so with
            | some v => if v.truthy then some v else none
            | none => none }
      if !res.ok then
        ⟨{ ok := false, error := some (res.error.getD "unknown error"),
           taskId := some taskId }, db, some req⟩
      else
        ⟨{ ok := true, taskId := some taskId,
           status := some (taskUrl baseUrl query.workspaceId taskId query.syncId),
           logs := some (logUrl baseUrl query.workspaceId taskId query.syncId) },
         db, some req⟩ := by
  simp only [runSyncHandler, h1, h2, h3, hfs, h4, h5, if_false, Bool.false_eq_true, if_neg]
  simp [hfs]
  cases so <;> rfl

/-- A state-decoding throw in the non-fullSync case is caught by the top-level
`catch`: the result is the `syncError` shape and no dispatch happens. -/
theorem runSync_stateError_path (db : SyncDb) (query : RunQuery) (baseUrl taskId : String)
    (oauthResult : Except String Json) (dispatchResult : Except String RpcResult)
    (sync : ConfigurationObjectLink) (service : ServiceObject) (e : String)
    (h1 : db.links.find? (linkMatches query) = some sync)
    (h2 : db.tasks.find? (taskRunningMatches query) = none)
    (h3 : sync.fromRel = some service)
    (hfs : (query.fullSync == some "true" || query.fullSync == some "1") = false)
    (h4 : loadStateObj (db.states.filter (fun r => r.sync_id == query.syncId)) = .error e) :
    runSyncHandler db query baseUrl taskId oauthResult dispatchResult =
      ⟨syncError "Error running sync" e
         ("sync: " ++ query.syncId ++ " workspace: " ++ query.workspaceId), db, none⟩ := by
  simp only [runSyncHandler, h1, h2, h3, hfs, h4]
  simp [hfs]

/-- A throw inside `tryManageOauthCreds` is caught by the top-level `catch`:
the result is the `syncError` shape and no dispatch happens. -/
theorem runSync_oauthError_path (db : SyncDb) (query : RunQuery) (baseUrl taskId : String)
    (dispatchResult : Except String RpcResult)
    (sync : ConfigurationObjectLink) (service : ServiceObject)
    (so : Option StateVal) (cat : Catalog) (e : String)
    (h1 : db.links.find? (linkMatches query) = some sync)
    (h2 : db.tasks.find? (taskRunningMatches query) = none)
    (h3 : sync.fromRel = some service)
    (hfs : (query.fullSync == some "true" || query.fullSync == some "1") = false)
    (h4 : loadStateObj (db.states.filter (fun r => r.sync_id == query.syncId)) = .ok so)
    (h5 : catalogFromDb db service.config.package service.config.version
      sync.data.storageKey = some cat) :
    runSyncHandler db query baseUrl taskId (.error e) dispatchResult =
      ⟨syncError "Error running sync" e
         ("sync: " ++ query.syncId ++ " workspace: " ++ query.workspaceId), db, none⟩ := by
  simp only [runSyncHandler, h1, h2, h3, hfs, h4, h5]
  simp [hfs]

/-- On a fullSync run that passes the link, running-task and service checks, the
checkpoint rows of the sync are deleted (whatever happens later) and any dispatch
request that is issued omits the state. -/
theorem runSync_fullSync_path (db : SyncDb) (query : RunQuery) (baseUrl taskId : String)
    (oauthResult : Except String Json) (dispatchResult : Except String RpcResult)
    (sync : ConfigurationObjectLink) (service : ServiceObject)
    (h1 : db.links.find? (linkMatches query) = some sync)
    (h2 : db.tasks.find? (taskRunningMatches query) = none)
    (h3 : sync.fromRel = some service)
    (hfs : (query.fullSync == some "true" || query.fullSync == some "1") = true) :
    (runSyncHandler db query baseUrl taskId oauthResult dispatchResult).db.states =
      db.states.filter (fun r => r.sync_id != query.syncId) ∧
    (∀ req, (runSyncHandler db query baseUrl taskId oauthResult dispatchResult).dispatched =
      some req → req.state = none) := by
  constructor
  · rcases oauthResult with e | config <;>
      rcases dispatchResult with e2 | res <;>
      cases hc : catalogFromDb db service.config.package service.config.version
        sync.data.storageKey <;>
      simp only [runSyncHandler, h1, h2, h3, hfs, hc, if_true] <;>
      (try split) <;> simp
  · intro req hreq
    rcases oauthResult with e | config <;>
      rcases dispatchResult with e2 | res <;>
      rcases hc : catalogFromDb db service.config.package service.config.version
        sync.data.storageKey with _ | cat <;>
      simp only [runSyncHandler, h1, h2, h3, hfs, hc, if_true] at hreq <;>
      (try split at hreq) <;>
      simp at hreq <;>
      try rw [← hreq]

/-! ### The claims -/

/-- C1, counterexample to the claim as stated: on a run whose sync has a RUNNING
task, the handler's error string is `Sync is already running`, not the claimed
`already running`.  The input passes the link check and has a RUNNING task. -/
theorem claim1_error_string_counterexample :
    ((fixDb [⟨"t-run", "s1", "RUNNING"⟩] [⟨"s1", "customers", Json.num 7⟩]).links.find?
        (linkMatches fixQueryFull)).isSome = true ∧
    ((fixDb [⟨"t-run", "s1", "RUNNING"⟩] [⟨"s1", "customers", Json.num 7⟩]).tasks.find?
        (taskRunningMatches fixQueryFull)).isSome = true ∧
    (runSyncHandler (fixDb [⟨"t-run", "s1", "RUNNING"⟩] [⟨"s1", "customers", Json.num 7⟩])
        fixQueryFull "http://h" "t-new" (.ok (Json.obj [])) (.ok ⟨true, none⟩)).result.error =
      some "Sync is already running" ∧
    (some "Sync is already running" : Option String) ≠ some "already running" :=
  ⟨rfl, rfl, rfl, by decide⟩

/-- C1 as amended: when a RUNNING task exists for the sync (and the link check
passes), the handler returns `{ok:false, error:"Sync is already running"}`
carrying the running task's id and status/logs URLs, the database is unchanged
(no checkpoint rows deleted, even under fullSync) and no dispatch is issued. -/
theorem claim1_already_running (db : SyncDb) (query : RunQuery) (baseUrl taskId : String)
    (oauthResult : Except String Json) (dispatchResult : Except String RpcResult)
    (sync : ConfigurationObjectLink) (running : SourceTask)
    (h1 : db.links.find? (linkMatches query) = some sync)
    (h2 : db.tasks.find? (taskRunningMatches query) = some running) :
    runSyncHandler db query baseUrl taskId oauthResult dispatchResult =
      ⟨{ ok := false, error := some "Sync is already running",
         runningTask := some
           { taskId := running.task_id,
             status := taskUrl baseUrl query.workspaceId running.task_id query.syncId,
             logs := logUrl baseUrl query.workspaceId running.task_id query.syncId } },
       db, none⟩ :=
  runSync_running_path db query baseUrl taskId oauthResult dispatchResult sync running h1 h2

/-- C1 witness: the amended claim at a concrete database with a RUNNING task,
under `fullSync=true`; the state row survives and nothing is dispatched. -/
theorem claim1_witness :
    runSyncHandler (fixDb [⟨"t-run", "s1", "RUNNING"⟩] [⟨"s1", "customers", Json.num 7⟩])
        fixQueryFull "http://h" "t-new" (.ok (Json.obj [])) (.ok ⟨true, none⟩) =
      ⟨{ ok := false, error := some "Sync is already running",
         runningTask := some
           { taskId := "t-run",
             status := taskUrl "http://h" "w1" "t-run" "s1",
             logs := logUrl "http://h" "w1" "t-run" "s1" } },
       fixDb [⟨"t-run", "s1", "RUNNING"⟩] [⟨"s1", "customers", Json.num 7⟩], none⟩ :=
  claim1_already_running _ _ _ _ _ _ fixLink ⟨"t-run", "s1", "RUNNING"⟩ rfl rfl

/-- C2, counterexample to the claim as stated: a fullSync run that passes the
link and running-task checks but whose link has no service relation returns
before the checkpoint delete, so a checkpoint row for the sync remains. -/
theorem claim2_service_check_counterexample :
    (cdb2.links.find? (linkMatches fixQueryFull)).isSome = true ∧
    cdb2.tasks.find? (taskRunningMatches fixQueryFull) = none ∧
    fixQueryFull.fullSync = some "true" ∧
    (runSyncHandler cdb2 fixQueryFull "http://h" "t0" (.ok (Json.obj []))
        (.ok ⟨true, none⟩)).db.states = [⟨"s1", "customers", Json.num 7⟩] :=
  ⟨rfl, rfl, rfl, rfl⟩

/-- C2 as amended: on a fullSync run that passes the link, running-task and
service checks, no checkpoint row for the sync remains afterwards (on every
path) and any dispatch request that is issued omits the state field. -/
theorem claim2_full_sync_deletes_state (db : SyncDb) (query : RunQuery)
    (baseUrl taskId : String)
    (oauthResult : Except String Json) (dispatchResult : Except String RpcResult)
    (sync : ConfigurationObjectLink) (service : ServiceObject)
    (h1 : db.links.find? (linkMatches query) = some sync)
    (h2 : db.tasks.find? (taskRunningMatches query) = none)
    (h3 : sync.fromRel = some service)
    (hfs : query.fullSync = some "true" ∨ query.fullSync = some "1") :
    (∀ r ∈ (runSyncHandler db query baseUrl taskId oauthResult dispatchResult).db.states,
      r.sync_id ≠ query.syncId) ∧
    (∀ req, (runSyncHandler db query baseUrl taskId oauthResult dispatchResult).dispatched =
      some req → req.state = none) := by
  have hfs' : (query.fullSync == some "true" || query.fullSync == some "1") = true := by
    rcases hfs with h | h <;> simp [h]
  obtain ⟨hdb, hreq⟩ := runSync_fullSync_path db query baseUrl taskId oauthResult
    dispatchResult sync service h1 h2 h3 hfs'
  refine ⟨?_, hreq⟩
  intro r hr
  rw [hdb] at hr
  simpa using (List.mem_filter.mp hr).2

/-- C2 witness: the amended claim at a concrete database holding checkpoint
rows for `s1` and for another sync. -/
theorem claim2_witness :
    (∀ r ∈ (runSyncHandler
        (fixDb [] [⟨"s1", "customers", Json.num 7⟩, ⟨"s2", "x", Json.num 1⟩])
        fixQueryFull "http://h" "t0" (.ok (Json.obj [])) (.ok ⟨true, none⟩)).db.states,
      r.sync_id ≠ fixQueryFull.syncId) ∧
    (∀ req, (runSyncHandler
        (fixDb [] [⟨"s1", "customers", Json.num 7⟩, ⟨"s2", "x", Json.num 1⟩])
        fixQueryFull "http://h" "t0" (.ok (Json.obj [])) (.ok ⟨true, none⟩)).dispatched =
      some req → req.state = none) :=
  claim2_full_sync_deletes_state _ _ _ _ _ _ fixLink fixService rfl rfl rfl (Or.inl rfl)

/-- C5: when no link exists with the sync's id in the workspace that is
un-deleted and of type `sync` — in particular when only a soft-deleted link
matches — the handler returns the not-found result normally (it is a value,
not a thrown exception), leaves the database unchanged and dispatches
nothing. -/
theorem claim5_sync_not_found (db : SyncDb) (query : RunQuery) (baseUrl taskId : String)
    (oauthResult : Except String Json) (dispatchResult : Except String RpcResult)
    (h : ∀ l ∈ db.links, ¬(l.id = query.syncId ∧ l.workspaceId = query.workspaceId ∧
      l.deleted = false ∧ l.type = "sync")) :
    runSyncHandler db query baseUrl taskId oauthResult dispatchResult =
      ⟨{ ok := false, error := some ("Sync " ++ query.syncId ++ " not found") }, db, none⟩ :=
  runSync_notFound_path db query baseUrl taskId oauthResult dispatchResult h

/-- C5 witness: a database whose only link for `s1` is soft-deleted yields the
not-found result. -/
theorem claim5_witness :
    (∀ l ∈ cdb5.links, ¬(l.id = fixQuery.syncId ∧ l.workspaceId = fixQuery.workspaceId ∧
      l.deleted = false ∧ l.type = "sync")) ∧
    runSyncHandler cdb5 fixQuery "http://h" "t0" (.ok (Json.obj [])) (.ok ⟨true, none⟩) =
      ⟨{ ok := false, error := some ("Sync " ++ fixQuery.syncId ++ " not found") },
       cdb5, none⟩ :=
  ⟨by decide, claim5_sync_not_found _ _ _ _ _ _ (by decide)⟩

/-- C7: when the run reaches dispatch and the sync controller answers
`{ok:false, error}`, the handler returns `{ok:false, error:<the service's
error>, taskId:<the generated id>}`; the dispatch request had been issued and
carried that same task id. -/
theorem claim7_dispatch_failure_keeps_task_id (db : SyncDb) (query : RunQuery)
    (baseUrl taskId : String) (config : Json) (res : RpcResult) (emsg : String)
    (sync : ConfigurationObjectLink) (service : ServiceObject)
    (so : Option StateVal) (cat : Catalog)
    (h1 : db.links.find? (linkMatches query) = some sync)
    (h2 : db.tasks.find? (taskRunningMatches query) = none)
    (h3 : sync.fromRel = some service)
    (hfs : (query.fullSync == some "true" || query.fullSync == some "1") = false)
    (h4 : loadStateObj (db.states.filter (fun r => r.sync_id == query.syncId)) = .ok so)
    (h5 : catalogFromDb db service.config.package service.config.version
      sync.data.storageKey = some cat)
    (hok : res.ok = false) (herr : res.error = some emsg) :
    (runSyncHandler db query baseUrl taskId (.ok config) (.ok res)).result =
      { ok := false, error := some emsg, taskId := some taskId } ∧
    ∃ req, (runSyncHandler db query baseUrl taskId (.ok config) (.ok res)).dispatched =
      some req ∧ req.taskId = taskId := by
  rw [runSync_dispatch_path db query baseUrl taskId config res sync service so cat
    h1 h2 h3 hfs h4 h5]
  simp [hok, herr]

/-- C7 witness: a dispatch response `{ok:false, error:"boom"}` yields
`{ok:false, error:"boom", taskId:"t-gen"}`. -/
theorem claim7_witness :
    (runSyncHandler (fixDb [] []) fixQuery "http://h" "t-gen" (.ok (Json.obj []))
        (.ok ⟨false, some "boom"⟩)).result =
      { ok := false, error := some "boom", taskId := some "t-gen" } ∧
    ∃ req, (runSyncHandler (fixDb [] []) fixQuery "http://h" "t-gen" (.ok (Json.obj []))
        (.ok ⟨false, some "boom"⟩)).dispatched = some req ∧ req.taskId = "t-gen" :=
  claim7_dispatch_failure_keeps_task_id _ _ _ _ _ _ "boom" fixLink fixService none
    fixCatalogRow.catalog rfl rfl rfl rfl rfl rfl rfl rfl

/-- C8, counterexample to the claim as stated: when credential resolution
throws after the task id `t-gen` was generated, the returned failure carries no
taskId at all (the top-level catch cannot see it), contradicting the claimed
`{ok:false, error, taskId}` shape. -/
theorem claim8_task_id_counterexample :
    (runSyncHandler (fixDb [] []) fixQuery "http://h" "t-gen"
        (.error "oauth refresh failed") (.ok ⟨true, none⟩)).result.ok = false ∧
    (runSyncHandler (fixDb [] []) fixQuery "http://h" "t-gen"
        (.error "oauth refresh failed") (.ok ⟨true, none⟩)).result.taskId = none ∧
    (runSyncHandler (fixDb [] []) fixQuery "http://h" "t-gen"
        (.error "oauth refresh failed") (.ok ⟨true, none⟩)).dispatched = none :=
  ⟨rfl, rfl, rfl⟩

/-- C8 as amended: a credential-resolution failure propagates — no dispatch is
ever issued, so the run never falls back to stale credentials — and is
surfaced as an `{ok:false, error}` result, but without the generated task id,
which the top-level catch does not receive. -/
theorem claim8_credential_failure (db : SyncDb) (query : RunQuery)
    (baseUrl taskId : String) (dispatchResult : Except String RpcResult) (e : String)
    (sync : ConfigurationObjectLink) (service : ServiceObject)
    (so : Option StateVal) (cat : Catalog)
    (h1 : db.links.find? (linkMatches query) = some sync)
    (h2 : db.tasks.find? (taskRunningMatches query) = none)
    (h3 : sync.fromRel = some service)
    (hfs : (query.fullSync == some "true" || query.fullSync == some "1") = false)
    (h4 : loadStateObj (db.states.filter (fun r => r.sync_id == query.syncId)) = .ok so)
    (h5 : catalogFromDb db service.config.package service.config.version
      sync.data.storageKey = some cat) :
    (runSyncHandler db query baseUrl taskId (.error e) dispatchResult).result.ok = false ∧
    ((runSyncHandler db query baseUrl taskId (.error e) dispatchResult).result.error).isSome
      = true ∧
    (runSyncHandler db query baseUrl taskId (.error e) dispatchResult).result.taskId = none ∧
    (runSyncHandler db query baseUrl taskId (.error e) dispatchResult).dispatched = none := by
  rw [runSync_oauthError_path db query baseUrl taskId dispatchResult sync service so cat e
    h1 h2 h3 hfs h4 h5]
  exact ⟨rfl, rfl, rfl, rfl⟩

/-- C8 witness: the amended claim at a concrete database with a thrown
credential error. -/
theorem claim8_witness :
    (runSyncHandler (fixDb [] []) fixQuery "http://h" "t-gen"
        (.error "oauth refresh failed") (.ok ⟨true, none⟩)).result.ok = false ∧
    ((runSyncHandler (fixDb [] []) fixQuery "http://h" "t-gen"
        (.error "oauth refresh failed") (.ok ⟨true, none⟩)).result.error).isSome = true ∧
    (runSyncHandler (fixDb [] []) fixQuery "http://h" "t-gen"
        (.error "oauth refresh failed") (.ok ⟨true, none⟩)).result.taskId = none ∧
    (runSyncHandler (fixDb [] []) fixQuery "http://h" "t-gen"
        (.error "oauth refresh failed") (.ok ⟨true, none⟩)).dispatched = none :=
  claim8_credential_failure _ _ _ _ _ _ fixLink fixService none fixCatalogRow.catalog
    rfl rfl rfl rfl rfl rfl

/-- C3: a row whose stream key splits into a segment count other than 1 or 2
fails the whole per-stream load (even when every other row is well-formed), and
on a run reaching the state load the failure is caught and surfaced as a
generic `{ok:false, error}` result: no dispatch, no partial state, database
untouched. -/
theorem claim3_invalid_stream_key (rows : List SourceStateRow) (bad : SourceStateRow)
    (hmem : bad ∈ rows)
    (hs1 : bad.stream ≠ "_LEGACY_STATE") (hs2 : bad.stream ≠ "_GLOBAL_STATE")
    (hl1 : (splitOnDot bad.stream).length ≠ 1) (hl2 : (splitOnDot bad.stream).length ≠ 2)
    (db : SyncDb) (query : RunQuery) (baseUrl taskId : String)
    (oauthResult : Except String Json) (dispatchResult : Except String RpcResult)
    (sync : ConfigurationObjectLink) (service : ServiceObject)
    (h1 : db.links.find? (linkMatches query) = some sync)
    (h2 : db.tasks.find? (taskRunningMatches query) = none)
    (h3 : sync.fromRel = some service)
    (hfs : (query.fullSync == some "true" || query.fullSync == some "1") = false)
    (hrows : db.states.filter (fun r => r.sync_id == query.syncId) = rows) :
    (∃ e, loadStateObj rows = .error e) ∧
    (runSyncHandler db query baseUrl taskId oauthResult dispatchResult).result.ok = false ∧
    ((runSyncHandler db query baseUrl taskId oauthResult dispatchResult).result.error).isSome
      = true ∧
    (runSyncHandler db query baseUrl taskId oauthResult dispatchResult).result.taskId = none ∧
    (runSyncHandler db query baseUrl taskId oauthResult dispatchResult).dispatched = none ∧
    (runSyncHandler db query baseUrl taskId oauthResult dispatchResult).db = db := by
  have herr : ∃ e, loadStateObj rows = .error e := by
    rcases rows with _ | ⟨r0, rest⟩
    · cases hmem
    · have hshape : rest ≠ [] ∨ (r0.stream ≠ "_LEGACY_STATE" ∧ r0.stream ≠ "_GLOBAL_STATE") := by
        rcases rest with _ | ⟨r1, rest'⟩
        · right
          rcases List.mem_singleton.mp hmem with rfl
          exact ⟨hs1, hs2⟩
        · left; simp
      rw [loadStateObj_perStream r0 rest hshape]
      have hbadf : bad ∈ (r0 :: rest).filter
          (fun r2 => r2.stream != "_LEGACY_STATE" && r2.stream != "_GLOBAL_STATE") := by
        rw [List.mem_filter]
        exact ⟨hmem, by simp [hs1, hs2]⟩
      obtain ⟨e', he'⟩ := mapThrow_error_of_mem hbadf _ (decodePerStreamRow_invalid bad hl1 hl2)
      exact ⟨e', by rw [he']⟩
  obtain ⟨e, he⟩ := herr
  have hload : loadStateObj (db.states.filter (fun r => r.sync_id == query.syncId)) =
      .error e := by rw [hrows]; exact he
  rw [runSync_stateError_path db query baseUrl taskId oauthResult dispatchResult sync service e
    h1 h2 h3 hfs hload]
  exact ⟨⟨e, he⟩, rfl, rfl, rfl, rfl, rfl⟩

/-- C3 witness: a batch holding the malformed row `a.b.c` next to a well-formed
row fails the load and the run is surfaced as a generic failure. -/
theorem claim3_witness :
    (∃ e, loadStateObj [⟨"s1", "a.b.c", Json.num 1⟩, ⟨"s1", "customers", Json.num 2⟩] =
      .error e) ∧
    (runSyncHandler (fixDb [] [⟨"s1", "a.b.c", Json.num 1⟩, ⟨"s1", "customers", Json.num 2⟩])
        fixQuery "http://h" "t0" (.ok (Json.obj [])) (.ok ⟨true, none⟩)).result.ok = false ∧
    ((runSyncHandler (fixDb [] [⟨"s1", "a.b.c", Json.num 1⟩, ⟨"s1", "customers", Json.num 2⟩])
        fixQuery "http://h" "t0" (.ok (Json.obj [])) (.ok ⟨true, none⟩)).result.error).isSome
      = true ∧
    (runSyncHandler (fixDb [] [⟨"s1", "a.b.c", Json.num 1⟩, ⟨"s1", "customers", Json.num 2⟩])
        fixQuery "http://h" "t0" (.ok (Json.obj [])) (.ok ⟨true, none⟩)).result.taskId = none ∧
    (runSyncHandler (fixDb [] [⟨"s1", "a.b.c", Json.num 1⟩, ⟨"s1", "customers", Json.num 2⟩])
        fixQuery "http://h" "t0" (.ok (Json.obj [])) (.ok ⟨true, none⟩)).dispatched = none ∧
    (runSyncHandler (fixDb [] [⟨"s1", "a.b.c", Json.num 1⟩, ⟨"s1", "customers", Json.num 2⟩])
        fixQuery "http://h" "t0" (.ok (Json.obj [])) (.ok ⟨true, none⟩)).db =
      fixDb [] [⟨"s1", "a.b.c", Json.num 1⟩, ⟨"s1", "customers", Json.num 2⟩] :=
  claim3_invalid_stream_key
    [⟨"s1", "a.b.c", Json.num 1⟩, ⟨"s1", "customers", Json.num 2⟩]
    ⟨"s1", "a.b.c", Json.num 1⟩ (List.mem_cons_self _ _)
    (by decide) (by decide) (by decide) (by decide)
    _ _ _ _ _ _ fixLink fixService rfl rfl rfl rfl rfl

/-- C6: the decode round-trips — a single `_LEGACY_STATE` row loads as the
verbatim blob, a single `_GLOBAL_STATE` row loads as a one-element GLOBAL list,
an empty batch loads as `none`, and on a run with no checkpoint rows the
dispatch request omits the state field. -/
theorem claim6_state_roundtrip (r : SourceStateRow) (db : SyncDb) (query : RunQuery)
    (baseUrl taskId : String) (config : Json) (res : RpcResult)
    (sync : ConfigurationObjectLink) (service : ServiceObject) (cat : Catalog) :
    (r.stream = "_LEGACY_STATE" → loadStateObj [r] = .ok (some (.legacy r.state))) ∧
    (r.stream = "_GLOBAL_STATE" →
      loadStateObj [r] = .ok (some (.entries [.globalEntry r.state]))) ∧
    loadStateObj ([] : List SourceStateRow) = .ok none ∧
    (db.links.find? (linkMatches query) = some sync →
      db.tasks.find? (taskRunningMatches query) = none →
      sync.fromRel = some service →
      (query.fullSync == some "true" || query.fullSync == some "1") = false →
      db.states.filter (fun x => x.sync_id == query.syncId) = [] →
      catalogFromDb db service.config.package service.config.version
        sync.data.storageKey = some cat →
      ∃ req, (runSyncHandler db query baseUrl taskId (.ok config) (.ok res)).dispatched =
        some req ∧ req.state = none) := by
  refine ⟨?_, ?_, rfl, ?_⟩
  · intro h; simp [loadStateObj, h]
  · intro h; simp [loadStateObj, h]
  · intro h1 h2 h3 hfs hempty h5
    have h4 : loadStateObj (db.states.filter (fun x => x.sync_id == query.syncId)) =
        .ok none := by rw [hempty]; rfl
    rw [runSync_dispatch_path db query baseUrl taskId config res sync service none cat
      h1 h2 h3 hfs h4 h5]
    dsimp only
    split <;> exact ⟨_, rfl, rfl⟩

/-- C6 witness: the legacy and global round-trips on concrete rows, and a
concrete run with no checkpoint rows dispatches without a state field. -/
theorem claim6_witness :
    loadStateObj [⟨"s1", "_LEGACY_STATE", Json.num 5⟩] =
      .ok (some (.legacy (Json.num 5))) ∧
    loadStateObj [⟨"s1", "_GLOBAL_STATE", Json.num 6⟩] =
      .ok (some (.entries [.globalEntry (Json.num 6)])) ∧
    loadStateObj ([] : List SourceStateRow) = .ok none ∧
    (∃ req, (runSyncHandler (fixDb [] []) fixQuery "http://h" "t0" (.ok (Json.obj []))
        (.ok ⟨true, none⟩)).dispatched = some req ∧ req.state = none) :=
  ⟨(claim6_state_roundtrip ⟨"s1", "_LEGACY_STATE", Json.num 5⟩ (fixDb [] []) fixQuery
      "http://h" "t0" (Json.obj []) ⟨true, none⟩ fixLink fixService
      fixCatalogRow.catalog).1 rfl,
   (claim6_state_roundtrip ⟨"s1", "_GLOBAL_STATE", Json.num 6⟩ (fixDb [] []) fixQuery
      "http://h" "t0" (Json.obj []) ⟨true, none⟩ fixLink fixService
      fixCatalogRow.catalog).2.1 rfl,
   rfl,
   (claim6_state_roundtrip ⟨"s1", "_LEGACY_STATE", Json.num 5⟩ (fixDb [] []) fixQuery
      "http://h" "t0" (Json.obj []) ⟨true, none⟩ fixLink fixService
      fixCatalogRow.catalog).2.2.2 rfl rfl rfl rfl rfl rfl⟩

/-- C9: on a batch that is more than one row (or one non-sentinel row), the
per-stream decode works on the rows with the sentinel keys `_LEGACY_STATE` and
`_GLOBAL_STATE` filtered out, neither decoding them nor failing; and when every
row is a sentinel the decoded state is the empty list, which is still truthy
and therefore still sent as the state field of the dispatch body. -/
theorem claim9_sentinel_filtering (rows : List SourceStateRow) (r0 : SourceStateRow)
    (rest : List SourceStateRow) (hrows : rows = r0 :: rest)
    (hshape : rest ≠ [] ∨ (r0.stream ≠ "_LEGACY_STATE" ∧ r0.stream ≠ "_GLOBAL_STATE"))
    (db : SyncDb) (query : RunQuery) (baseUrl taskId : String)
    (config : Json) (res : RpcResult)
    (sync : ConfigurationObjectLink) (service : ServiceObject) (cat : Catalog) :
    loadStateObj rows =
      (match mapThrow decodePerStreamRow (rows.filter
          (fun r2 => r2.stream != "_LEGACY_STATE" && r2.stream != "_GLOBAL_STATE")) with
       | .ok items => .ok (some (.entries items))
       | .error e => .error e) ∧
    ((∀ x ∈ rows, x.stream = "_LEGACY_STATE" ∨ x.stream = "_GLOBAL_STATE") →
      db.links.find? (linkMatches query) = some sync →
      db.tasks.find? (taskRunningMatches query) = none →
      sync.fromRel = some service →
      (query.fullSync == some "true" || query.fullSync == some "1") = false →
      db.states.filter (fun x => x.sync_id == query.syncId) = rows →
      catalogFromDb db service.config.package service.config.version
        sync.data.storageKey = some cat →
      ∃ req, (runSyncHandler db query baseUrl taskId (.ok config) (.ok res)).dispatched =
        some req ∧ req.state = some (.entries [])) := by
  have hper : loadStateObj rows =
      (match mapThrow decodePerStreamRow (rows.filter
          (fun r2 => r2.stream != "_LEGACY_STATE" && r2.stream != "_GLOBAL_STATE")) with
       | .ok items => .ok (some (.entries items))
       | .error e => .error e) := by
    rw [hrows]
    exact loadStateObj_perStream r0 rest hshape
  refine ⟨hper, ?_⟩
  intro hall h1 h2 h3 hfs hfilt h5
  have hfe : rows.filter
      (fun r2 => r2.stream != "_LEGACY_STATE" && r2.stream != "_GLOBAL_STATE") = [] := by
    rw [List.filter_eq_nil_iff]
    intro x hx
    rcases hall x hx with h | h <;> simp [h]
  have hload : loadStateObj (db.states.filter (fun x => x.sync_id == query.syncId)) =
      .ok (some (.entries [])) := by
    rw [hfilt, hper, hfe]
    rfl
  rw [runSync_dispatch_path db query baseUrl taskId config res sync service
    (some (.entries [])) cat h1 h2 h3 hfs hload h5]
  dsimp only
  split <;> exact ⟨_, rfl, rfl⟩

/-- C9 witness: a batch of the two sentinel rows decodes to the empty list and
a concrete run over it sends `state: []` in the dispatch body. -/
theorem claim9_witness :
    loadStateObj [⟨"s1", "_LEGACY_STATE", Json.num 1⟩, ⟨"s1", "_GLOBAL_STATE", Json.num 2⟩] =
      .ok (some (.entries [])) ∧
    (∃ req, (runSyncHandler
        (fixDb [] [⟨"s1", "_LEGACY_STATE", Json.num 1⟩, ⟨"s1", "_GLOBAL_STATE", Json.num 2⟩])
        fixQuery "http://h" "t0" (.ok (Json.obj [])) (.ok ⟨true, none⟩)).dispatched =
      some req ∧ req.state = some (.entries [])) :=
  ⟨(claim9_sentinel_filtering
      [⟨"s1", "_LEGACY_STATE", Json.num 1⟩, ⟨"s1", "_GLOBAL_STATE", Json.num 2⟩]
      ⟨"s1", "_LEGACY_STATE", Json.num 1⟩ [⟨"s1", "_GLOBAL_STATE", Json.num 2⟩] rfl
      (Or.inl (List.cons_ne_nil _ _))
      (fixDb [] [⟨"s1", "_LEGACY_STATE", Json.num 1⟩, ⟨"s1", "_GLOBAL_STATE", Json.num 2⟩])
      fixQuery "http://h" "t0" (Json.obj []) ⟨true, none⟩ fixLink fixService
      fixCatalogRow.catalog).1,
   (claim9_sentinel_filtering
      [⟨"s1", "_LEGACY_STATE", Json.num 1⟩, ⟨"s1", "_GLOBAL_STATE", Json.num 2⟩]
      ⟨"s1", "_LEGACY_STATE", Json.num 1⟩ [⟨"s1", "_GLOBAL_STATE", Json.num 2⟩] rfl
      (Or.inl (List.cons_ne_nil _ _))
      (fixDb [] [⟨"s1", "_LEGACY_STATE", Json.num 1⟩, ⟨"s1", "_GLOBAL_STATE", Json.num 2⟩])
      fixQuery "http://h" "t0" (Json.obj []) ⟨true, none⟩ fixLink fixService
      fixCatalogRow.catalog).2
     (by decide) rfl rfl rfl rfl rfl rfl⟩

/-- C4, counterexample to the claim as stated: a catalog stream whose
`namespace` field is present but is the empty string is keyed by its plain
name, not by `<namespace>.name` as the claim's key would have it — with
selection `{"a": true}` the stream `{name:"a", namespace:""}` is included even
though the selection has no entry at the claimed key `.a` (at which the claim
says it must be dropped). -/
theorem claim4_empty_namespace_counterexample :
    (selectStreamsFromCatalog { streams := [fixEmptyNsStream] } fixSelectionA).streams.length
      = 1 ∧
    List.lookup (claimedStreamKey fixEmptyNsStream) fixSelectionA = none :=
  ⟨rfl, rfl⟩

/-- C4 as amended: catalog streams are keyed as `namespace.name` when the
stream has a nonempty namespace and `name` otherwise (a present-but-empty
namespace string counts as absent); a stream is included exactly when the
selection has a truthy entry for that key and is dropped otherwise; the output
preserves catalog iteration order; and each emitted entry is the selection
directive's fields merged with `destination_sync_mode: "overwrite"` and the
full catalog stream descriptor under `stream`. -/
theorem claim4_stream_selection (catalog : Catalog) (sel : List (String × Json)) :
    (selectStreamsFromCatalog catalog sel).streams =
      (catalog.streams.filter (fun s => jsTruthyOpt (List.lookup (streamSelectionKey s) sel))).map
        (configuredStreamEntry sel) :=
  selectStreams_eq catalog sel

/-- C10: a selection entry with a falsy value (null, false, 0 or the empty
string) behaves exactly as an absent key: prepending such an entry for a key
not otherwise present leaves the configured catalog unchanged. -/
theorem claim10_falsy_selection_dropped (catalog : Catalog) (k : String) (v : Json)
    (sel : List (String × Json)) (hv : v.truthy = false) (hk : ∀ p ∈ sel, p.1 ≠ k) :
    selectStreamsFromCatalog catalog ((k, v) :: sel) = selectStreamsFromCatalog catalog sel := by
  have hselk : List.lookup k sel = none := lookup_eq_none_of_keys k sel hk
  have hfilter : ∀ s ∈ catalog.streams,
      (fun s => jsTruthyOpt (List.lookup (streamSelectionKey s) ((k, v) :: sel))) s =
      (fun s => jsTruthyOpt (List.lookup (streamSelectionKey s) sel)) s := by
    intro s _
    dsimp only
    by_cases hke : streamSelectionKey s = k
    · rw [hke, lookup_cons_self, hselk]
      simp [jsTruthyOpt, hv]
    · rw [lookup_cons_ne _ _ _ _ hke]
  ext1
  rw [selectStreams_eq, selectStreams_eq, List.filter_congr hfilter]
  apply List.map_congr_left
  intro s hs
  obtain ⟨hsmem, hst⟩ := List.mem_filter.mp hs
  unfold configuredStreamEntry
  by_cases hke : streamSelectionKey s = k
  · rw [hke, hselk] at hst
    simp [jsTruthyOpt] at hst
  · rw [lookup_cons_ne _ _ _ _ hke]

/-- C10 witness: with catalog streams `a`, `b` and selection `{"a": true}`,
prepending the falsy entry `{"b": null}` leaves the configured catalog exactly
as without it. -/
theorem claim10_witness :
    Json.null.truthy = false ∧
    (∀ p ∈ fixSelectionA, p.1 ≠ "b") ∧
    selectStreamsFromCatalog fixCatalogAB (("b", Json.null) :: fixSelectionA) =
      selectStreamsFromCatalog fixCatalogAB fixSelectionA :=
  ⟨rfl, by decide,
   claim10_falsy_selection_dropped fixCatalogAB "b" Json.null fixSelectionA rfl (by decide)⟩

end Aquifer
